import Mathlib

/-!
Shallow embedding of the jito-restaking excerpt (lrt_core/src/config.rs,
restaking_program/src/operator_remove_vault.rs, sanitization/src/system_program.rs)
and proofs about its validation, state-machine and counter behaviour.

Modelling conventions:
* A Solana `Pubkey` is an uninterpreted byte string (`List UInt8`); equality is
  the only operation the code under scrutiny performs on keys, besides feeding
  them to the PDA hash.
* `Pubkey.find_program_address` / `Pubkey.create_program_address` are SHA-256
  based and are treated as abstract function parameters (`findPA` / `createPA`)
  of the definitions that call them; every theorem quantifies over them.
* Rust `Result<T, ProgramError>` becomes `Except ProgramError T`; `Option` stays
  `Option`; `u64` becomes `Nat` with explicit `2 ^ 64` bounds where overflow
  matters (`checked_add`).
* Account data is a raw byte list; borsh (de)serialization of `Config` is
  embedded byte-for-byte from the derived layout: one tag byte, two 32-byte
  keys, a little-endian u64, 1024 reserved bytes, one bump byte.
-/

/-- A public key: raw bytes, compared for equality only. -/
abbrev Pubkey := List UInt8

/-- The solana system program id (the all-zero key). -/
def systemProgramId : Pubkey := List.replicate 32 0

/-- Error codes surfaced by the embedded code.  The first block mirrors
`solana_program::program_error::ProgramError` variants actually used by the
sources; the second block holds the spec-level error kinds used by the parts of
the repository that are modelled from the spec (state machine, authorization). -/
inductive ProgramError
  | uninitializedAccount
  | invalidAccountOwner
  | invalidAccountData
  | invalidSeeds
  | borshIoError
  | notEnoughAccountKeys
  | missingRequiredSignature
  | authorizationFailure
  | invalidStateTransition
  | uninitializedRecord
  | counterOverflow
  | alreadyExists
  deriving DecidableEq, Repr

/-- `jito_restaking_sanitization::assert_with_msg`: returns `Ok(())` when the
condition holds, otherwise logs the message and returns the given error. -/
def assert_with_msg (cond : Bool) (err : ProgramError) (msg : String) :
    Except ProgramError Unit :=
  if cond then .ok () else .error err

/-- A raw account region as the processors see it
(`solana_program::account_info::AccountInfo`): key, signer and writable flags,
owning program, and the data bytes. -/
structure AccountInfo where
  key : Pubkey
  is_signer : Bool
  is_writable : Bool
  owner : Pubkey
  data : List UInt8
  deriving DecidableEq, Repr

/-- `AccountInfo::data_is_empty`. -/
def AccountInfo.data_is_empty (a : AccountInfo) : Bool := a.data.isEmpty

/-- Modelled from the spec: the one-byte record type tag (`AccountType`).  Its
declaration lives in lrt_core/src/lib.rs, which is not part of the excerpt;
the spec fixes that every record begins with a one-byte type tag, so the
variant set is taken from the entity/ticket kinds the spec enumerates and the
byte values are a fixed arbitrary enumeration. -/
inductive AccountType
  | Config
  | Avs
  | Operator
  | AvsVaultTicket
  | AvsOperatorTicket
  | AvsVaultSlasherTicket
  | OperatorVaultTicket
  | OperatorAvsTicket
  | OperatorVaultList
  deriving DecidableEq, Repr

/-- Borsh tag byte of an `AccountType` value. -/
def AccountType.toByte : AccountType → UInt8
  | .Config => 0
  | .Avs => 1
  | .Operator => 2
  | .AvsVaultTicket => 3
  | .AvsOperatorTicket => 4
  | .AvsVaultSlasherTicket => 5
  | .OperatorVaultTicket => 6
  | .OperatorAvsTicket => 7
  | .OperatorVaultList => 8

/-- Borsh decoding of an `AccountType` tag byte; fails on an unknown tag. -/
def AccountType.fromByte : UInt8 → Option AccountType
  | 0 => some .Config
  | 1 => some .Avs
  | 2 => some .Operator
  | 3 => some .AvsVaultTicket
  | 4 => some .AvsOperatorTicket
  | 5 => some .AvsVaultSlasherTicket
  | 6 => some .OperatorVaultTicket
  | 7 => some .OperatorAvsTicket
  | 8 => some .OperatorVaultList
  | _ => none

/-- `u64::MAX`. -/
def U64_MAX : Nat := 2 ^ 64 - 1

/-- Rust `u64::checked_add` on the `Nat` model. -/
def checkedAddU64 (a b : Nat) : Option Nat :=
  if a + b ≤ U64_MAX then some (a + b) else none

/-- Split off exactly `n` bytes, failing when fewer are available. -/
def takeExact (n : Nat) (bs : List UInt8) : Option (List UInt8 × List UInt8) :=
  if n ≤ bs.length then some (bs.take n, bs.drop n) else none

/-- Little-endian u64 decoding of an 8-byte list. -/
def u64FromLe (bs : List UInt8) : Nat :=
  (bs.enum.map (fun p => p.2.toNat * 256 ^ p.1)).sum

/-- Little-endian u64 encoding into 8 bytes. -/
def u64ToLe (x : Nat) : List UInt8 :=
  (List.range 8).map (fun i => UInt8.ofNat (x / 256 ^ i % 256))

/-- The `Config` record of lrt_core/src/config.rs. -/
structure Config where
  account_type : AccountType
  admin : Pubkey
  restaking_program_signer : Pubkey
  num_vaults : Nat
  reserved : List UInt8
  bump : UInt8
  deriving DecidableEq, Repr

/-- `Config::new`. -/
def Config.new (admin restaking_program_signer : Pubkey) (bump : UInt8) : Config :=
  { account_type := .Config
    admin := admin
    restaking_program_signer := restaking_program_signer
    num_vaults := 0
    reserved := List.replicate 1024 0
    bump := bump }

/-- `Config::admin`. -/
def Config.adminKey (c : Config) : Pubkey := c.admin

/-- `Config::increment_vaults`: `self.num_vaults = self.num_vaults.checked_add(1)?;
Some(self.num_vaults)`.  Rust mutates `self` in place; the model returns the
`Option<u64>` result together with the updated record (unchanged when
`checked_add` overflows, because `?` returns before the assignment). -/
def Config.increment_vaults (c : Config) : Option Nat × Config :=
  match checkedAddU64 c.num_vaults 1 with
  | none => (none, c)
  | some v => (some v, { c with num_vaults := v })

/-- `Config::vaults_count`. -/
def Config.vaults_count (c : Config) : Nat := c.num_vaults

/-- `Config::bump`. -/
def Config.bumpByte (c : Config) : UInt8 := c.bump

/-- `Config::is_struct_valid`. -/
def Config.is_struct_valid (c : Config) : Bool := c.account_type == .Config

/-- The byte string `b"config"`. -/
def configSeedBytes : List UInt8 := [0x63, 0x6f, 0x6e, 0x66, 0x69, 0x67]

/-- `Config::seeds`: `vec![b"config".to_vec()]`. -/
def Config.seeds : List (List UInt8) := [configSeedBytes]

/-- `Config::restaking_program_signer`. -/
def Config.restakingProgramSigner (c : Config) : Pubkey := c.restaking_program_signer

/-- `Config::find_program_address`, parameterized by the abstract PDA search
function `findPA` standing for `Pubkey::find_program_address`. -/
def Config.find_program_address
    (findPA : List (List UInt8) → Pubkey → Pubkey × UInt8)
    (program_id : Pubkey) : Pubkey × UInt8 × List (List UInt8) :=
  let seeds := Config.seeds
  let pb := findPA seeds program_id
  (pb.1, pb.2, seeds)

/-- Borsh serialization of `Config` (derived layout: tag byte, admin key,
restaking program signer key, little-endian u64 vault count, 1024 reserved
bytes, bump byte). -/
def Config.serialize (c : Config) : List UInt8 :=
  [c.account_type.toByte] ++ c.admin ++ c.restaking_program_signer
    ++ u64ToLe c.num_vaults ++ c.reserved ++ [c.bump]

/-- Borsh parse of a `Config` from a byte prefix, returning the remainder
(`BorshDeserialize::deserialize` reads from a mutable slice and leaves
trailing bytes unconsumed). -/
def parseConfig (bs : List UInt8) : Option (Config × List UInt8) := do
  let (tagBytes, bs) ← takeExact 1 bs
  let tag ← AccountType.fromByte (tagBytes.headD 0)
  let (admin, bs) ← takeExact 32 bs
  let (signerKey, bs) ← takeExact 32 bs
  let (countBytes, bs) ← takeExact 8 bs
  let (reserved, bs) ← takeExact 1024 bs
  let (bumpBytes, bs) ← takeExact 1 bs
  some (⟨tag, admin, signerKey, u64FromLe countBytes, reserved, bumpBytes.headD 0⟩, bs)

/-- `Config::deserialize` (derived borsh): parse failure becomes the borsh IO
error that `ProgramError::from` produces. -/
def Config.deserialize (bs : List UInt8) : Except ProgramError Config :=
  match parseConfig bs with
  | some (c, _) => .ok c
  | none => .error .borshIoError

/-- `Config::deserialize_checked`, parameterized by the abstract
`Pubkey::create_program_address` (`createPA`), which returns `none` exactly
when the solana primitive would return a `PubkeyError` (mapped by `?` to
`ProgramError::InvalidSeeds`). -/
def Config.deserialize_checked
    (createPA : List (List UInt8) → Pubkey → Option Pubkey)
    (program_id : Pubkey) (account : AccountInfo) : Except ProgramError Config := do
  assert_with_msg (!account.data_is_empty) .uninitializedAccount
    ("Config account is not initialized")
  assert_with_msg (account.owner == program_id) .invalidAccountOwner
    ("Invalid Config account owner")
  let config ← Config.deserialize account.data
  assert_with_msg config.is_struct_valid .invalidAccountData
    ("Invalid Config account data")
  let seeds := Config.seeds ++ [[config.bump]]
  match createPA seeds program_id with
  | none => .error .invalidSeeds
  | some expected_pubkey => do
    assert_with_msg (expected_pubkey == account.key) .invalidAccountData
      ("Invalid Config account address")
    pure config

/-- The validated handle `SanitizedConfig`. -/
structure SanitizedConfig where
  account : AccountInfo
  config : Config
  deriving DecidableEq, Repr

/-- `SanitizedConfig::sanitize`: writable-flag check (when requested), then
`Config::deserialize_checked`. -/
def SanitizedConfig.sanitize
    (createPA : List (List UInt8) → Pubkey → Option Pubkey)
    (program_id : Pubkey) (account : AccountInfo) (expect_writable : Bool) :
    Except ProgramError SanitizedConfig := do
  if expect_writable then
    assert_with_msg account.is_writable .invalidAccountData
      ("Invalid writable flag for Config")
  let config ← Config.deserialize_checked createPA program_id account
  pure ⟨account, config⟩

/-- Mutation of the in-memory record through `SanitizedConfig::config_mut`:
the handle's `config` field is replaced, its `account` field (the persisted
region) is untouched.  Rust hands out `&mut Config` into the struct field;
this is the state-passing rendering of writing through that reference. -/
def SanitizedConfig.with_config (s : SanitizedConfig) (c : Config) : SanitizedConfig :=
  { s with config := c }

/-- `SanitizedConfig::save`: `borsh::to_writer(&mut self.account.data.borrow_mut()[..],
&self.config)` — serializes the in-memory record over the front of the region's
byte buffer (an `io::Write` into a fixed slice fails when the buffer is too
short).  Returns the region's new bytes. -/
def SanitizedConfig.save (s : SanitizedConfig) : Except ProgramError (List UInt8) :=
  let ser := Config.serialize s.config
  if ser.length ≤ s.account.data.length then
    .ok (ser ++ s.account.data.drop ser.length)
  else
    .error .borshIoError

/-- The validated system-program handle of sanitization/src/system_program.rs. -/
structure SanitizedSystemProgram where
  account : AccountInfo
  deriving DecidableEq, Repr

/-- `SanitizedSystemProgram::sanitize`: the single check
`account.key == &system_program::id()`. -/
def SanitizedSystemProgram.sanitize (account : AccountInfo) :
    Except ProgramError SanitizedSystemProgram := do
  assert_with_msg (account.key == systemProgramId) .invalidAccountData
    ("Invalid SystemProgram account")
  pure ⟨account⟩

/-- Modelled from the spec: an edge's activation state —
`Active(slot_added)` or `Removed(slot_added, slot_removed)` (spec section 4.3).
The declaring source file is not part of the excerpt. -/
inductive EdgeState
  | active (slot_added : Nat)
  | removed (slot_added : Nat) (slot_removed : Nat)
  deriving DecidableEq, Repr

/-- Modelled from the spec: one operator→vault edge held in the operator's
vault list: endpoint, ordinal index assigned at creation, activation state. -/
structure VaultEntry where
  vault : Pubkey
  index : Nat
  state : EdgeState
  deriving DecidableEq, Repr

/-- Modelled from the spec: the `OperatorVaultList` record named by
restaking_program/src/operator_remove_vault.rs; its declaring source file is
not part of the excerpt.  Type tag first, owning operator, the edge entries,
bump byte last, per the spec's record-layout contract. -/
structure OperatorVaultList where
  account_type : AccountType
  operator : Pubkey
  entries : List VaultEntry
  bump : UInt8
  deriving DecidableEq, Repr

/-- Modelled from the spec: `OperatorVaultList::remove_vault(vault, slot)` —
the Remove transition of spec section 4.3 on the operator→vault edge.
Allowed only when the edge is `Active`; requires `slot_removed ≥ slot_added`
(using the current slot); fails with `UninitializedRecord` when the edge was
never added and with `InvalidStateTransition` when it is already `Removed`. -/
def OperatorVaultList.remove_vault (l : OperatorVaultList) (vault : Pubkey)
    (slot : Nat) : Except ProgramError OperatorVaultList :=
  match (l.entries.find? (fun e => e.vault == vault)) with
  | none => .error .uninitializedRecord
  | some e =>
    match e.state with
    | .removed _ _ => .error .invalidStateTransition
    | .active slot_added =>
      if slot_added ≤ slot then
        .ok { l with
              entries := l.entries.map (fun e2 =>
                if e2.vault == vault then { e2 with state := .removed slot_added slot }
                else e2) }
      else .error .invalidStateTransition

/-- Modelled from the spec: the `Operator` entity record — admin identity,
base identity, edge counters, voter identity (spec section 3); its declaring
source file is not part of the excerpt. -/
structure Operator where
  account_type : AccountType
  admin : Pubkey
  base : Pubkey
  voter : Pubkey
  vault_count : Nat
  avs_count : Nat
  bump : UInt8
  deriving DecidableEq, Repr

/-- Modelled from the spec: `Operator::check_admin` — an operation issued by a
signer other than the entity's stored admin fails with the authorization
error. -/
def Operator.check_admin (o : Operator) (signer : Pubkey) :
    Except ProgramError Unit :=
  if o.admin == signer then .ok () else .error .authorizationFailure

/-- Modelled from the spec: borsh-style serialization of an `EdgeState`
(enum tag byte, then the slots little-endian). -/
def EdgeState.serialize : EdgeState → List UInt8
  | .active sa => [0] ++ u64ToLe sa
  | .removed sa sr => [1] ++ u64ToLe sa ++ u64ToLe sr

/-- Modelled from the spec: parse of an `EdgeState`. -/
def parseEdgeState (bs : List UInt8) : Option (EdgeState × List UInt8) := do
  let (tagBytes, bs) ← takeExact 1 bs
  match tagBytes.headD 0 with
  | 0 => do
    let (sa, bs) ← takeExact 8 bs
    some (.active (u64FromLe sa), bs)
  | 1 => do
    let (sa, bs) ← takeExact 8 bs
    let (sr, bs) ← takeExact 8 bs
    some (.removed (u64FromLe sa) (u64FromLe sr), bs)
  | _ => none

/-- Modelled from the spec: serialization of one vault entry. -/
def VaultEntry.serialize (e : VaultEntry) : List UInt8 :=
  e.vault ++ u64ToLe e.index ++ e.state.serialize

/-- Modelled from the spec: parse of one vault entry. -/
def parseVaultEntry (bs : List UInt8) : Option (VaultEntry × List UInt8) := do
  let (vault, bs) ← takeExact 32 bs
  let (idx, bs) ← takeExact 8 bs
  let (st, bs) ← parseEdgeState bs
  some (⟨vault, u64FromLe idx, st⟩, bs)

/-- Modelled from the spec: parse of a length-prefixed entry sequence. -/
def parseVaultEntries : Nat → List UInt8 → Option (List VaultEntry × List UInt8)
  | 0, bs => some ([], bs)
  | n + 1, bs => do
    let (e, bs) ← parseVaultEntry bs
    let (es, bs) ← parseVaultEntries n bs
    some (e :: es, bs)

/-- Modelled from the spec: little-endian u32 encoding into 4 bytes. -/
def u32ToLe (x : Nat) : List UInt8 :=
  (List.range 4).map (fun i => UInt8.ofNat (x / 256 ^ i % 256))

/-- Modelled from the spec: serialization of an `OperatorVaultList` — tag
byte, operator key, u32 entry count, the entries, bump byte. -/
def OperatorVaultList.serialize (l : OperatorVaultList) : List UInt8 :=
  [l.account_type.toByte] ++ l.operator ++ u32ToLe l.entries.length
    ++ (l.entries.map VaultEntry.serialize).flatten ++ [l.bump]

/-- Modelled from the spec: parse of an `OperatorVaultList` from a byte
prefix. -/
def parseOperatorVaultList (bs : List UInt8) :
    Option (OperatorVaultList × List UInt8) := do
  let (tagBytes, bs) ← takeExact 1 bs
  let tag ← AccountType.fromByte (tagBytes.headD 0)
  let (op, bs) ← takeExact 32 bs
  let (nBytes, bs) ← takeExact 4 bs
  let (es, bs) ← parseVaultEntries (u64FromLe nBytes) bs
  let (bumpBytes, bs) ← takeExact 1 bs
  some (⟨tag, op, es, bumpBytes.headD 0⟩, bs)

/-- Modelled from the spec: serialization of an `Operator` record — tag byte,
admin, base, voter, the two counters, bump byte. -/
def Operator.serialize (o : Operator) : List UInt8 :=
  [o.account_type.toByte] ++ o.admin ++ o.base ++ o.voter
    ++ u64ToLe o.vault_count ++ u64ToLe o.avs_count ++ [o.bump]

/-- Modelled from the spec: parse of an `Operator` from a byte prefix. -/
def parseOperator (bs : List UInt8) : Option (Operator × List UInt8) := do
  let (tagBytes, bs) ← takeExact 1 bs
  let tag ← AccountType.fromByte (tagBytes.headD 0)
  let (admin, bs) ← takeExact 32 bs
  let (base, bs) ← takeExact 32 bs
  let (voter, bs) ← takeExact 32 bs
  let (vc, bs) ← takeExact 8 bs
  let (ac, bs) ← takeExact 8 bs
  let (bumpBytes, bs) ← takeExact 1 bs
  some (⟨tag, admin, base, voter, u64FromLe vc, u64FromLe ac, bumpBytes.headD 0⟩, bs)

/-- The byte string `b"operator"`. -/
def operatorSeedBytes : List UInt8 := [0x6f, 0x70, 0x65, 0x72, 0x61, 0x74, 0x6f, 0x72]

/-- Modelled from the spec: the seed literal of the operator vault list
record. -/
def operatorVaultListSeedBytes : List UInt8 :=
  [0x6f, 0x70, 0x65, 0x72, 0x61, 0x74, 0x6f, 0x72, 0x5f, 0x76, 0x61, 0x75,
   0x6c, 0x74, 0x5f, 0x6c, 0x69, 0x73, 0x74]

/-- Modelled from the spec: the validated `Operator` handle. -/
structure SanitizedOperator where
  account : AccountInfo
  operator : Operator
  deriving DecidableEq, Repr

/-- Modelled from the spec: `SanitizedOperator::sanitize` — the five `validate`
steps of spec section 4.2 instantiated at `Operator`: non-empty region, owner
check, deserialization plus type-tag check, address re-derivation from the
seeds `["operator", base]` and the stored bump, then the writable-flag check
when requested. -/
def SanitizedOperator.sanitize
    (createPA : List (List UInt8) → Pubkey → Option Pubkey)
    (program_id : Pubkey) (account : AccountInfo) (expect_writable : Bool) :
    Except ProgramError SanitizedOperator := do
  assert_with_msg (!account.data_is_empty) .uninitializedRecord
    ("Operator account is not initialized")
  assert_with_msg (account.owner == program_id) .invalidAccountOwner
    ("Invalid Operator account owner")
  let operator ←
    match parseOperator account.data with
    | some (o, _) => Except.ok o
    | none => Except.error .borshIoError
  assert_with_msg (operator.account_type == .Operator) .invalidAccountData
    ("Invalid Operator account data")
  let seeds := [operatorSeedBytes, operator.base, [operator.bump]]
  match createPA seeds program_id with
  | none => .error .invalidSeeds
  | some expected_pubkey => do
    assert_with_msg (expected_pubkey == account.key) .invalidAccountData
      ("Invalid Operator account address")
    if expect_writable then
      assert_with_msg account.is_writable .invalidAccountData
        ("Invalid writable flag for Operator")
    pure ⟨account, operator⟩

/-- Modelled from the spec: the validated `OperatorVaultList` handle. -/
structure SanitizedOperatorVaultList where
  account : AccountInfo
  operator_vault_list : OperatorVaultList
  deriving DecidableEq, Repr

/-- Modelled from the spec: `SanitizedOperatorVaultList::sanitize` — the
`validate` steps of spec section 4.2 instantiated at `OperatorVaultList`,
re-deriving the address from the seeds `["operator_vault_list", operator]`
(the operator key passed by the caller) and the stored bump. -/
def SanitizedOperatorVaultList.sanitize
    (createPA : List (List UInt8) → Pubkey → Option Pubkey)
    (program_id : Pubkey) (account : AccountInfo) (expect_writable : Bool)
    (operator : Pubkey) : Except ProgramError SanitizedOperatorVaultList := do
  assert_with_msg (!account.data_is_empty) .uninitializedRecord
    ("OperatorVaultList account is not initialized")
  assert_with_msg (account.owner == program_id) .invalidAccountOwner
    ("Invalid OperatorVaultList account owner")
  let lst ←
    match parseOperatorVaultList account.data with
    | some (l, _) => Except.ok l
    | none => Except.error .borshIoError
  assert_with_msg (lst.account_type == .OperatorVaultList) .invalidAccountData
    ("Invalid OperatorVaultList account data")
  let seeds := [operatorVaultListSeedBytes, operator, [lst.bump]]
  match createPA seeds program_id with
  | none => .error .invalidSeeds
  | some expected_pubkey => do
    assert_with_msg (expected_pubkey == account.key) .invalidAccountData
      ("Invalid OperatorVaultList account address")
    if expect_writable then
      assert_with_msg account.is_writable .invalidAccountData
        ("Invalid writable flag for OperatorVaultList")
    pure ⟨account, lst⟩

/-- Modelled from the spec: `SanitizedOperatorVaultList::save` — re-serializes
the (possibly mutated) record back into the region; returns the region's new
bytes. -/
def SanitizedOperatorVaultList.saveData (s : SanitizedOperatorVaultList)
    (l : OperatorVaultList) : List UInt8 :=
  OperatorVaultList.serialize l

/-- Modelled from the spec: the validated signer handle
(`jito_restaking_sanitization::signer::SanitizedSignerAccount`; its source
file is not part of the excerpt): the account must be a transaction signer,
and writable when requested. -/
structure SanitizedSignerAccount where
  account : AccountInfo
  deriving DecidableEq, Repr

/-- Modelled from the spec: `SanitizedSignerAccount::sanitize`. -/
def SanitizedSignerAccount.sanitize (account : AccountInfo)
    (expect_writable : Bool) : Except ProgramError SanitizedSignerAccount := do
  assert_with_msg account.is_signer .missingRequiredSignature
    ("Expected signer account")
  if expect_writable then
    assert_with_msg account.is_writable .invalidAccountData
      ("Invalid writable flag for signer")
  pure ⟨account⟩

/-- `solana_program::account_info::next_account_info` on an explicit cursor:
yields the next account and the rest, or `NotEnoughAccountKeys`. -/
def next_account_info : List AccountInfo →
    Except ProgramError (AccountInfo × List AccountInfo)
  | [] => .error .notEnoughAccountKeys
  | a :: rest => .ok (a, rest)

/-- The accounts of `RestakingInstruction::OperatorRemoveVault` after
sanitization (restaking_program/src/operator_remove_vault.rs). -/
structure SanitizedAccounts where
  operator : SanitizedOperator
  operator_vault_list : SanitizedOperatorVaultList
  admin : SanitizedSignerAccount
  vault : AccountInfo
  deriving DecidableEq, Repr

/-- `SanitizedAccounts::sanitize` of operator_remove_vault.rs: config
(read-only), operator (read-only), operator vault list (writable, bound to the
operator key), admin signer, then the raw vault account, which undergoes no
validation. -/
def SanitizedAccounts.sanitize
    (createPA : List (List UInt8) → Pubkey → Option Pubkey)
    (program_id : Pubkey) (accounts : List AccountInfo) :
    Except ProgramError SanitizedAccounts := do
  let (configAcct, rest) ← next_account_info accounts
  let _config ← SanitizedConfig.sanitize createPA program_id configAcct false
  let (operatorAcct, rest) ← next_account_info rest
  let operator ← SanitizedOperator.sanitize createPA program_id operatorAcct false
  let (listAcct, rest) ← next_account_info rest
  let operator_vault_list ←
    SanitizedOperatorVaultList.sanitize createPA program_id listAcct true
      operatorAcct.key
  let (adminAcct, rest) ← next_account_info rest
  let admin ← SanitizedSignerAccount.sanitize adminAcct false
  let (vaultAcct, _) ← next_account_info rest
  pure ⟨operator, operator_vault_list, admin, vaultAcct⟩

/-- Replace the data bytes of the account at position `i`. -/
def setAccountData : List AccountInfo → Nat → List UInt8 → List AccountInfo
  | [], _, _ => []
  | a :: rest, 0, bs => { a with data := bs } :: rest
  | a :: rest, n + 1, bs => a :: setAccountData rest n bs

/-- Replace the account at position `i` wholesale. -/
def setAccount : List AccountInfo → Nat → AccountInfo → List AccountInfo
  | [], _, _ => []
  | _ :: rest, 0, b => b :: rest
  | a :: rest, n + 1, b => a :: setAccount rest n b

/-- `process_operator_remove_vault`: sanitize the accounts, check the admin
against the operator record, run the Remove transition at the current slot,
save the vault list.  The state-passing rendering returns the whole account
list with the vault-list region (position 2) rewritten by `save`; an error
leaves every region as it was (the runtime discards all writes of a failed
instruction, and the only write point, `save`, is reached last). -/
def process_operator_remove_vault
    (createPA : List (List UInt8) → Pubkey → Option Pubkey)
    (program_id : Pubkey) (accounts : List AccountInfo) (slot : Nat) :
    Except ProgramError (List AccountInfo) := do
  let sa ← SanitizedAccounts.sanitize createPA program_id accounts
  sa.operator.operator.check_admin sa.admin.account.key
  let newList ←
    sa.operator_vault_list.operator_vault_list.remove_vault sa.vault.key slot
  let newData := SanitizedOperatorVaultList.saveData sa.operator_vault_list newList
  pure (setAccountData accounts 2 newData)

/-! ### Concrete fixtures used by witnesses and counterexamples -/

/-- A concrete PDA model: the derived address is the concatenation of the
seeds.  (The theorems quantify over the PDA function; this instance is only
used to evaluate the definitions on concrete inputs.) -/
def cpa0 : List (List UInt8) → Pubkey → Option Pubkey :=
  fun seeds _ => some seeds.flatten

/-- A concrete program identity. -/
def pid0 : Pubkey := [7]

/-- A concrete, well-formed `Config` record. -/
def cfg0 : Config := Config.new (List.replicate 32 1) (List.replicate 32 2) 42

/-- The `Config` account that validates under `cpa0` and `pid0`. -/
def configAcct : AccountInfo :=
  { key := configSeedBytes ++ [42]
    is_signer := false
    is_writable := false
    owner := pid0
    data := Config.serialize cfg0 }

/-- A `Config` record whose stored type tag is not `Config`. -/
def cfgBadTag : Config := { cfg0 with account_type := .Avs }

/-- An account whose record parses but carries the wrong type tag. -/
def acctTagBad : AccountInfo :=
  { configAcct with data := Config.serialize cfgBadTag }

/-- An account whose record parses with the right tag but whose physical
address differs from the re-derived one. -/
def acctAddrBad : AccountInfo :=
  { configAcct with key := [9, 9] }

/-- An empty, non-writable account region. -/
def acctEmpty : AccountInfo :=
  { key := [1], is_signer := false, is_writable := false, owner := pid0, data := [] }

/-- The admin identity stored in the fixture operator record. -/
def adminKey0 : Pubkey := List.replicate 32 3

/-- A signer key distinct from `adminKey0`. -/
def otherKey0 : Pubkey := List.replicate 32 4

/-- The fixture operator's base identity. -/
def baseKey0 : Pubkey := List.replicate 32 5

/-- A concrete, well-formed `Operator` record. -/
def op0 : Operator :=
  { account_type := .Operator
    admin := adminKey0
    base := baseKey0
    voter := List.replicate 32 6
    vault_count := 1
    avs_count := 0
    bump := 9 }

/-- The `Operator` account that validates under `cpa0` and `pid0`. -/
def operatorAcct : AccountInfo :=
  { key := operatorSeedBytes ++ baseKey0 ++ [9]
    is_signer := false
    is_writable := false
    owner := pid0
    data := Operator.serialize op0 }

/-- The fixture vault key. -/
def vaultKey0 : Pubkey := List.replicate 32 8

/-- A concrete vault list holding one active operator→vault edge. -/
def ovl0 : OperatorVaultList :=
  { account_type := .OperatorVaultList
    operator := List.replicate 32 7
    entries := [⟨vaultKey0, 0, .active 3⟩]
    bump := 11 }

/-- The `OperatorVaultList` account that validates under `cpa0` and `pid0`. -/
def listAcct : AccountInfo :=
  { key := operatorVaultListSeedBytes ++ operatorAcct.key ++ [11]
    is_signer := false
    is_writable := true
    owner := pid0
    data := OperatorVaultList.serialize ovl0 }

/-- A signer account whose key is not the operator's stored admin. -/
def wrongAdminAcct : AccountInfo :=
  { key := otherKey0, is_signer := true, is_writable := false, owner := [0], data := [] }

/-- A signer account whose key is the operator's stored admin. -/
def rightAdminAcct : AccountInfo :=
  { key := adminKey0, is_signer := true, is_writable := false, owner := [0], data := [] }

/-- The raw vault account (undergoes no validation in the processor). -/
def vaultAcct : AccountInfo :=
  { key := vaultKey0, is_signer := false, is_writable := false, owner := [0], data := [] }

/-- A vault account with the same key but different data, owner and flags. -/
def vaultAcctVariant : AccountInfo :=
  { key := vaultKey0, is_signer := true, is_writable := true, owner := pid0, data := [1, 2] }

/-- Account list for `operator_remove_vault` with a non-admin signer. -/
def accountsWrongAdmin : List AccountInfo :=
  [configAcct, operatorAcct, listAcct, wrongAdminAcct, vaultAcct]

/-- Account list for `operator_remove_vault` with the true admin signing. -/
def accountsOk : List AccountInfo :=
  [configAcct, operatorAcct, listAcct, rightAdminAcct, vaultAcct]

/-- The sanitized-accounts value produced on `accountsWrongAdmin`. -/
def saWrongAdmin : SanitizedAccounts :=
  { operator := ⟨operatorAcct, op0⟩
    operator_vault_list := ⟨listAcct, ovl0⟩
    admin := ⟨wrongAdminAcct⟩
    vault := vaultAcct }


set_option maxRecDepth 100000

/-! ### Helper lemmas -/

/-- Bind on a successful `Except` computation. -/
theorem bindOk {ε α β : Type} (a : α) (f : α → Except ε β) :
    (Except.ok a >>= f) = f a := rfl

/-- Bind on a failed `Except` computation. -/
theorem bindErr {ε α β : Type} (e : ε) (f : α → Except ε β) :
    (Except.error e >>= f : Except ε β) = Except.error e := rfl

/-- Map on a successful `Except` computation. -/
theorem mapOk {ε α β : Type} (a : α) (f : α → β) :
    (f <$> (Except.ok a : Except ε α)) = Except.ok (f a) := rfl

/-- Map on a failed `Except` computation. -/
theorem mapErr {ε α β : Type} (e : ε) (f : α → β) :
    (f <$> (Except.error e : Except ε α)) = (Except.error e : Except ε β) := rfl

/-- Case-analysis form of `Config.deserialize_checked`. -/
theorem deserialize_checked_eq
    (createPA : List (List UInt8) → Pubkey → Option Pubkey)
    (program_id : Pubkey) (account : AccountInfo) :
    Config.deserialize_checked createPA program_id account =
      if account.data.isEmpty then .error .uninitializedAccount
      else if account.owner ≠ program_id then .error .invalidAccountOwner
      else
        match parseConfig account.data with
        | none => .error .borshIoError
        | some (cfg, _) =>
          if cfg.account_type ≠ .Config then .error .invalidAccountData
          else
            match createPA (Config.seeds ++ [[cfg.bump]]) program_id with
            | none => .error .invalidSeeds
            | some pk =>
              if pk ≠ account.key then .error .invalidAccountData
              else .ok cfg := by
  unfold Config.deserialize_checked assert_with_msg Config.deserialize
    AccountInfo.data_is_empty Config.is_struct_valid
  cases h : account.data.isEmpty with
  | true => simp [h, bindErr]
  | false =>
    simp only [h, Bool.not_false, if_true, bindOk, bindErr, ite_not]
    by_cases how : account.owner = program_id
    · simp only [how, beq_self_eq_true, if_true, if_pos rfl, bindOk]
      cases hp : parseConfig account.data with
      | none => simp [bindErr]
      | some p =>
        obtain ⟨cfg, r⟩ := p
        simp only [bindOk]
        by_cases ht : cfg.account_type = AccountType.Config
        · simp only [ht, beq_self_eq_true, if_true, ite_not, if_pos rfl, bindOk]
          cases hc : createPA (Config.seeds ++ [[cfg.bump]]) program_id with
          | none => simp
          | some pk =>
            by_cases hk : pk = account.key
            · simp [hk, bindOk, mapOk]
            · simp [hk, beq_eq_false_iff_ne.mpr hk, mapErr]
        · have hb : (cfg.account_type == AccountType.Config) = false :=
            beq_eq_false_iff_ne.mpr ht
          simp [hb, ht, bindErr]
    · have hb : (account.owner == program_id) = false := beq_eq_false_iff_ne.mpr how
      simp [hb, how, bindErr]

/-- Case-analysis form of `SanitizedConfig.sanitize`: the writable-flag check
runs before everything else, then `Config.deserialize_checked`. -/
theorem sanitize_eq
    (createPA : List (List UInt8) → Pubkey → Option Pubkey)
    (program_id : Pubkey) (account : AccountInfo) (expect_writable : Bool) :
    SanitizedConfig.sanitize createPA program_id account expect_writable =
      if expect_writable && !account.is_writable then .error .invalidAccountData
      else (Config.deserialize_checked createPA program_id account).map
        (fun c => ⟨account, c⟩) := by
  unfold SanitizedConfig.sanitize assert_with_msg
  cases expect_writable with
  | false =>
    simp only [Bool.false_eq_true, if_false, Bool.false_and, bind, Except.bind,
      pure, Except.pure]
    cases Config.deserialize_checked createPA program_id account <;>
      simp [Except.map]
  | true =>
    cases hw : account.is_writable with
    | false => simp [hw, bind, Except.bind]
    | true =>
      simp only [hw, Bool.true_and, Bool.not_true, Bool.false_eq_true, if_false,
        if_true, bind, Except.bind, pure, Except.pure]
      cases Config.deserialize_checked createPA program_id account <;>
        simp [Except.map]

/-! ### Claim theorems -/

/-- C4: for every `Config` state, `increment_vaults` increases the vault
counter by exactly 1 and returns `some` of the new count whenever the old
count is below `u64::MAX`; when the old count equals `u64::MAX` it returns
`none` and leaves the counter unchanged; and the counter never decreases
(`increment_vaults` is the only counter-mutating `Config` operation in the
source; `Config::new` creates a fresh record with a zero counter). -/
theorem C4_increment_vaults_spec (c : Config) :
    (c.num_vaults < U64_MAX →
      c.increment_vaults =
        (some (c.num_vaults + 1), { c with num_vaults := c.num_vaults + 1 })) ∧
    (c.num_vaults = U64_MAX → c.increment_vaults = (none, c)) ∧
    c.num_vaults ≤ (c.increment_vaults).2.num_vaults := by
  unfold Config.increment_vaults checkedAddU64
  refine ⟨fun h => ?_, fun h => ?_, ?_⟩
  · rw [if_pos (by omega)]
  · rw [if_neg (by omega)]
  · by_cases h : c.num_vaults + 1 ≤ U64_MAX
    · rw [if_pos h]
      simp
    · rw [if_neg h]

/-- Witness for C4 at concrete inputs: a fresh config (counter 0) increments
to 1, and a config whose counter sits at `u64::MAX` overflows to `none`
unchanged. -/
theorem C4_increment_vaults_witness :
    cfg0.increment_vaults = (some 1, { cfg0 with num_vaults := 1 }) ∧
    ({ cfg0 with num_vaults := U64_MAX } : Config).increment_vaults =
      (none, { cfg0 with num_vaults := U64_MAX }) := by
  constructor
  · exact (C4_increment_vaults_spec cfg0).1 (by decide)
  · exact (C4_increment_vaults_spec { cfg0 with num_vaults := U64_MAX }).2.1 rfl

/-- C7: `Config::find_program_address` is a pure function — two calls with the
same PDA primitive and program identity return identical (address, bump,
seeds) — and the seed list it passes to the primitive and returns is exactly
the single literal `b"config"` (bytes 0x63 0x6f 0x6e 0x66 0x69 0x67). -/
theorem C7_find_program_address_pure
    (findPA : List (List UInt8) → Pubkey → Pubkey × UInt8)
    (program_id : Pubkey) :
    Config.find_program_address findPA program_id =
      Config.find_program_address findPA program_id ∧
    (Config.find_program_address findPA program_id).2.2 =
      [[0x63, 0x6f, 0x6e, 0x66, 0x69, 0x67]] ∧
    (Config.find_program_address findPA program_id).1 =
      (findPA [[0x63, 0x6f, 0x6e, 0x66, 0x69, 0x67]] program_id).1 ∧
    (Config.find_program_address findPA program_id).2.1 =
      (findPA [[0x63, 0x6f, 0x6e, 0x66, 0x69, 0x67]] program_id).2 :=
  ⟨rfl, rfl, rfl, rfl⟩

/-- C9: `SanitizedSystemProgram::sanitize` succeeds exactly when the account's
key is the system program id, fails with `InvalidAccountData` otherwise, and
its success-or-error outcome depends on nothing but the key: two accounts with
equal keys produce the same outcome whatever their owner, data, signer and
writable flags. -/
theorem C9_system_program_sanitize (a b : AccountInfo) :
    (SanitizedSystemProgram.sanitize a = .ok ⟨a⟩ ↔ a.key = systemProgramId) ∧
    (a.key ≠ systemProgramId →
      SanitizedSystemProgram.sanitize a = .error .invalidAccountData) ∧
    (a.key = b.key → ∀ e, (SanitizedSystemProgram.sanitize a = .error e ↔
      SanitizedSystemProgram.sanitize b = .error e)) := by
  unfold SanitizedSystemProgram.sanitize assert_with_msg
  refine ⟨?_, fun h => ?_, fun hk e => ?_⟩
  · by_cases h : a.key = systemProgramId
    · simp [h, bind, Except.bind, pure, Except.pure]
    · simp [beq_eq_false_iff_ne.mpr h, h, bind, Except.bind]
  · simp [beq_eq_false_iff_ne.mpr h, bind, Except.bind]
  · by_cases h : a.key = systemProgramId
    · rw [hk] at h
      simp [beq_iff_eq.mpr h, beq_iff_eq.mpr (hk.trans h), bind, Except.bind,
        pure, Except.pure]
    · rw [hk] at h
      simp [beq_eq_false_iff_ne.mpr h, beq_eq_false_iff_ne.mpr (hk ▸ h),
        bind, Except.bind]

/-- Witness for C9 at concrete inputs: the all-zero key succeeds, a nonzero
key fails with `InvalidAccountData`, and two accounts sharing the nonzero key
but differing in data, owner and flags fail identically. -/
theorem C9_system_program_sanitize_witness :
    SanitizedSystemProgram.sanitize
      ⟨systemProgramId, false, false, [0], [1]⟩ =
      .ok ⟨⟨systemProgramId, false, false, [0], [1]⟩⟩ ∧
    SanitizedSystemProgram.sanitize ⟨[5], false, false, [0], [1]⟩ =
      .error .invalidAccountData ∧
    (SanitizedSystemProgram.sanitize ⟨[5], false, false, [0], [1]⟩ =
        .error .invalidAccountData ↔
      SanitizedSystemProgram.sanitize ⟨[5], true, true, [9], []⟩ =
        .error .invalidAccountData) := by
  refine ⟨?_, ?_, ?_⟩
  · exact (C9_system_program_sanitize ⟨systemProgramId, false, false, [0], [1]⟩
      ⟨systemProgramId, false, false, [0], [1]⟩).1.mpr rfl
  · exact (C9_system_program_sanitize ⟨[5], false, false, [0], [1]⟩
      ⟨[5], false, false, [0], [1]⟩).2.1 (by decide)
  · exact (C9_system_program_sanitize ⟨[5], false, false, [0], [1]⟩
      ⟨[5], true, true, [9], []⟩).2.2 rfl ProgramError.invalidAccountData

/-- C1: `Config::deserialize_checked` fails when the region is empty, when
the region's owner differs from the program identity, when the deserialized
record's stored type tag is not `Config`, and when the address re-derived
from the fixed seeds plus the record's stored bump differs from the region's
physical address; when all four checks hold (the record parses and the PDA
primitive yields an address) it returns the deserialized `Config` record. -/
theorem C1_deserialize_checked_spec
    (createPA : List (List UInt8) → Pubkey → Option Pubkey)
    (program_id : Pubkey) (account : AccountInfo) :
    (account.data = [] →
      (Config.deserialize_checked createPA program_id account).isOk = false) ∧
    (account.owner ≠ program_id →
      (Config.deserialize_checked createPA program_id account).isOk = false) ∧
    (∀ cfg r, parseConfig account.data = some (cfg, r) →
      cfg.account_type ≠ .Config →
      (Config.deserialize_checked createPA program_id account).isOk = false) ∧
    (∀ cfg r pk, parseConfig account.data = some (cfg, r) →
      cfg.account_type = .Config →
      createPA (Config.seeds ++ [[cfg.bump]]) program_id = some pk →
      pk ≠ account.key →
      (Config.deserialize_checked createPA program_id account).isOk = false) ∧
    (∀ cfg r pk, account.data ≠ [] → account.owner = program_id →
      parseConfig account.data = some (cfg, r) → cfg.account_type = .Config →
      createPA (Config.seeds ++ [[cfg.bump]]) program_id = some pk →
      pk = account.key →
      Config.deserialize_checked createPA program_id account = .ok cfg) := by
  rw [deserialize_checked_eq]
  refine ⟨fun h => ?_, fun h => ?_, fun cfg r hp ht => ?_,
    fun cfg r pk hp ht hc hk => ?_, fun cfg r pk hd how hp ht hc hk => ?_⟩
  · simp [h, Except.isOk, Except.toBool]
  · repeat' split
    all_goals simp_all [Except.isOk, Except.toBool]
  · repeat' split
    all_goals simp_all [Except.isOk, Except.toBool]
  · repeat' split
    all_goals simp_all [Except.isOk, Except.toBool]
  · have hne : account.data.isEmpty = false := by
      cases hdd : account.data with
      | nil => exact absurd hdd hd
      | cons x xs => simp
    rw [if_neg (by simp [hne]), if_neg (by simp [how]), hp]
    simp [ht, hc, hk]

/-- Witness for C1: on the concrete well-formed fixture account, all four
checks hold and `deserialize_checked` returns the record. -/
theorem C1_deserialize_checked_witness :
    Config.deserialize_checked cpa0 pid0 configAcct = .ok cfg0 :=
  (C1_deserialize_checked_spec cpa0 pid0 configAcct).2.2.2.2 cfg0 []
    (configSeedBytes ++ [42]) (by decide) rfl (by rfl) rfl (by rfl) (by rfl)

/-- C3 counterexample: a type-tag mismatch and an address re-derivation
mismatch yield the SAME error value (`ProgramError::InvalidAccountData`), so
the two failures are not distinguishable by the returned error kind.
`acctTagBad` parses to a record whose tag is not `Config`; `acctAddrBad`
parses to a well-tagged record but sits at a key different from the
re-derived address. -/
theorem C3_error_kinds_counterexample :
    Config.deserialize_checked cpa0 pid0 acctTagBad = .error .invalidAccountData ∧
    Config.deserialize_checked cpa0 pid0 acctAddrBad = .error .invalidAccountData ∧
    parseConfig acctTagBad.data = some (cfgBadTag, []) ∧
    cfgBadTag.account_type ≠ .Config ∧
    acctTagBad.data ≠ [] ∧
    acctTagBad.owner = pid0 ∧
    parseConfig acctAddrBad.data = some (cfg0, []) ∧
    cfg0.account_type = .Config ∧
    cpa0 (Config.seeds ++ [[cfg0.bump]]) pid0 = some (configSeedBytes ++ [42]) ∧
    configSeedBytes ++ [42] ≠ acctAddrBad.key :=
  ⟨by rfl, by rfl, by rfl, by decide, by decide, rfl, by rfl, rfl, by rfl, by decide⟩

/-- C3 as amended: each validation failure of `Config::deserialize_checked`
yields the specific `ProgramError` the code maps it to — empty region →
`UninitializedAccount`, wrong owner → `InvalidAccountOwner`, wrong type tag →
`InvalidAccountData`, address mismatch → `InvalidAccountData`; the last two
share one error code and are told apart only by the logged message. -/
theorem C3_amended_error_kinds
    (createPA : List (List UInt8) → Pubkey → Option Pubkey)
    (program_id : Pubkey) (account : AccountInfo) :
    (account.data = [] →
      Config.deserialize_checked createPA program_id account =
        .error .uninitializedAccount) ∧
    (account.data ≠ [] → account.owner ≠ program_id →
      Config.deserialize_checked createPA program_id account =
        .error .invalidAccountOwner) ∧
    (∀ cfg r, account.data ≠ [] → account.owner = program_id →
      parseConfig account.data = some (cfg, r) → cfg.account_type ≠ .Config →
      Config.deserialize_checked createPA program_id account =
        .error .invalidAccountData) ∧
    (∀ cfg r pk, account.data ≠ [] → account.owner = program_id →
      parseConfig account.data = some (cfg, r) → cfg.account_type = .Config →
      createPA (Config.seeds ++ [[cfg.bump]]) program_id = some pk →
      pk ≠ account.key →
      Config.deserialize_checked createPA program_id account =
        .error .invalidAccountData) := by
  rw [deserialize_checked_eq]
  have hne : account.data ≠ [] → account.data.isEmpty = false := by
    intro hd
    cases hdd : account.data with
    | nil => exact absurd hdd hd
    | cons x xs => simp
  refine ⟨fun h => ?_, fun hd h => ?_, fun cfg r hd how hp ht => ?_,
    fun cfg r pk hd how hp ht hc hk => ?_⟩
  · simp [h]
  · rw [if_neg (by simp [hne hd]), if_pos h]
  · rw [if_neg (by simp [hne hd]), if_neg (by simp [how]), hp]
    simp [ht]
  · rw [if_neg (by simp [hne hd]), if_neg (by simp [how]), hp]
    simp [ht, hc, hk]

/-- Witness for C3 as amended: the empty fixture region yields
`UninitializedAccount` and the address-mismatch fixture yields
`InvalidAccountData`, by the amended theorem applied at concrete inputs. -/
theorem C3_amended_error_kinds_witness :
    Config.deserialize_checked cpa0 pid0 acctEmpty =
      .error .uninitializedAccount ∧
    Config.deserialize_checked cpa0 pid0 acctAddrBad =
      .error .invalidAccountData := by
  constructor
  · exact (C3_amended_error_kinds cpa0 pid0 acctEmpty).1 rfl
  · exact (C3_amended_error_kinds cpa0 pid0 acctAddrBad).2.2.2 cfg0 []
      (configSeedBytes ++ [42]) (by decide) rfl (by rfl) rfl (by rfl) (by decide)

/-- C6 counterexample: `SanitizedConfig::sanitize` performs the writable-flag
check FIRST, not fifth.  On an empty, non-writable region with
`expect_writable = true` the reported failure is the writable-flag error
(`InvalidAccountData`), not the empty-region error (`UninitializedAccount`)
that the earlier-listed check would produce. -/
theorem C6_check_order_counterexample :
    acctEmpty.data = [] ∧
    acctEmpty.is_writable = false ∧
    SanitizedConfig.sanitize cpa0 pid0 acctEmpty true =
      .error .invalidAccountData ∧
    Config.deserialize_checked cpa0 pid0 acctEmpty =
      .error .uninitializedAccount ∧
    ProgramError.invalidAccountData ≠ ProgramError.uninitializedAccount :=
  ⟨rfl, rfl, by rfl, by rfl, by decide⟩

/-- C6 as amended: the writable-flag check runs first — whenever
`require_writable` is set and the region is not writable, `sanitize` reports
the writable-flag failure (`InvalidAccountData`), even when the region would
also fail an earlier-listed check such as being empty. -/
theorem C6_amended_writable_first
    (createPA : List (List UInt8) → Pubkey → Option Pubkey)
    (program_id : Pubkey) (account : AccountInfo) :
    account.is_writable = false →
    SanitizedConfig.sanitize createPA program_id account true =
      .error .invalidAccountData := by
  intro hw
  rw [sanitize_eq]
  simp [hw]

/-- Witness for the amended C6 at a concrete input. -/
theorem C6_amended_writable_first_witness :
    SanitizedConfig.sanitize cpa0 pid0 acctEmpty true =
      .error .invalidAccountData :=
  C6_amended_writable_first cpa0 pid0 acctEmpty rfl

/-- C8: replacing the in-memory record through the `config_mut` view leaves
the handle's account region untouched (`save` is the only write point), and a
successful `save` writes exactly the serialization of the current in-memory
record into the front of the region — the bytes become that serialization
followed by the region's untouched tail, the region keeps its length, and no
other region is involved (`save` reads and produces only this account's
bytes). -/
theorem C8_save_frame (s : SanitizedConfig) (c : Config) :
    (s.with_config c).account = s.account ∧
    (∀ d, s.save = .ok d →
      d = Config.serialize s.config ++
        s.account.data.drop (Config.serialize s.config).length ∧
      d.take (Config.serialize s.config).length = Config.serialize s.config ∧
      d.length = s.account.data.length) := by
  constructor
  · rfl
  · intro d hd
    unfold SanitizedConfig.save at hd
    by_cases h : (Config.serialize s.config).length ≤ s.account.data.length
    · rw [if_pos h] at hd
      injection hd with hd
      subst hd
      refine ⟨rfl, List.take_left _ _, ?_⟩
      rw [List.length_append, List.length_drop]
      omega
    · rw [if_neg h] at hd
      exact absurd hd (by simp)

/-- Witness for C8 at the concrete fixture handle (region sized exactly to the
serialization): mutating the in-memory record keeps the region, and `save`
rewrites the region to the serialization of the current record. -/
theorem C8_save_frame_witness :
    (SanitizedConfig.with_config ⟨configAcct, cfg0⟩ cfgBadTag).account =
      configAcct ∧
    (Config.serialize cfg0 ++
        configAcct.data.drop (Config.serialize cfg0).length) =
      Config.serialize cfg0 ++
        configAcct.data.drop (Config.serialize cfg0).length ∧
    (Config.serialize cfg0 ++
        configAcct.data.drop (Config.serialize cfg0).length).take
          (Config.serialize cfg0).length = Config.serialize cfg0 ∧
    (Config.serialize cfg0 ++
        configAcct.data.drop (Config.serialize cfg0).length).length =
      configAcct.data.length := by
  refine ⟨(C8_save_frame ⟨configAcct, cfg0⟩ cfgBadTag).1, ?_⟩
  have h := (C8_save_frame ⟨configAcct, cfg0⟩ cfgBadTag).2
    (Config.serialize cfg0 ++
      configAcct.data.drop (Config.serialize cfg0).length) (by rfl)
  exact ⟨rfl, h.2.1, h.2.2⟩

/-- C2: the Remove transition on an operator→vault edge succeeds only when
the edge is currently `Active`, and then records the removal slot as the
current slot passed by the processor; removing an already-`Removed` edge
fails with `InvalidStateTransition`; removing an edge that was never added
fails with `UninitializedRecord`.  Failure returns only the error — the
state-passing model yields no updated record on any failure path. -/
theorem C2_remove_vault_spec (l : OperatorVaultList) (v : Pubkey) (slot : Nat) :
    (∀ l', l.remove_vault v slot = .ok l' →
      ∃ e slot_added, l.entries.find? (fun e2 => e2.vault == v) = some e ∧
        e.state = .active slot_added ∧ slot_added ≤ slot ∧
        l' = { l with entries := l.entries.map (fun e2 =>
          if e2.vault == v then { e2 with state := .removed slot_added slot }
          else e2) }) ∧
    (l.entries.find? (fun e2 => e2.vault == v) = none →
      l.remove_vault v slot = .error .uninitializedRecord) ∧
    (∀ e sa sr, l.entries.find? (fun e2 => e2.vault == v) = some e →
      e.state = .removed sa sr →
      l.remove_vault v slot = .error .invalidStateTransition) := by
  refine ⟨fun l' h => ?_, fun h => ?_, fun e sa sr hf hs => ?_⟩
  · unfold OperatorVaultList.remove_vault at h
    split at h
    next heq => exact absurd h (by simp)
    next e heq =>
      split at h
      next sa sr hstate => exact absurd h (by simp)
      next sa hstate =>
        split at h
        next hsl =>
          injection h with h
          exact ⟨e, sa, heq, hstate, hsl, h.symm⟩
        next hsl => exact absurd h (by simp)
  · unfold OperatorVaultList.remove_vault
    rw [h]
  · unfold OperatorVaultList.remove_vault
    simp only [hf, hs]

/-- Witness for C2 at concrete inputs: removing the active fixture edge at
slot 5 marks it `Removed(3, 5)`; removing it when already removed fails with
`InvalidStateTransition`; removing a never-added vault fails with
`UninitializedRecord`. -/
theorem C2_remove_vault_witness :
    (∃ e slot_added,
      ovl0.entries.find? (fun e2 => e2.vault == vaultKey0) = some e ∧
      e.state = .active slot_added ∧ slot_added ≤ 5 ∧
      ({ ovl0 with entries := [⟨vaultKey0, 0, .removed 3 5⟩] }
          : OperatorVaultList) =
        { ovl0 with entries := ovl0.entries.map (fun e2 =>
          if e2.vault == vaultKey0 then
            { e2 with state := .removed slot_added 5 }
          else e2) }) ∧
    OperatorVaultList.remove_vault
      { ovl0 with entries := [⟨vaultKey0, 0, EdgeState.removed 3 4⟩] }
      vaultKey0 5 = .error .invalidStateTransition ∧
    ovl0.remove_vault otherKey0 5 = .error .uninitializedRecord := by
  refine ⟨?_, ?_, ?_⟩
  · obtain ⟨e, sa, h1, h2, h3, h4⟩ :=
      (C2_remove_vault_spec ovl0 vaultKey0 5).1
        { ovl0 with entries := [⟨vaultKey0, 0, .removed 3 5⟩] } (by rfl)
    exact ⟨e, sa, h1, h2, h3, h4⟩
  · exact (C2_remove_vault_spec
      { ovl0 with entries := [⟨vaultKey0, 0, EdgeState.removed 3 4⟩] }
      vaultKey0 5).2.2 ⟨vaultKey0, 0, EdgeState.removed 3 4⟩ 3 4 (by rfl) rfl
  · exact (C2_remove_vault_spec ovl0 otherKey0 5).2.1 (by rfl)

/-- C5: when the accounts sanitize but the admin signer's key differs from
the admin identity stored in the operator record,
`process_operator_remove_vault` fails with the authorization error.  The
check runs before the Remove transition and before `save`, the processor's
only write point, so no account region's persisted data is modified (an
error in the state-passing model carries no updated state). -/
theorem C5_admin_authorization
    (createPA : List (List UInt8) → Pubkey → Option Pubkey)
    (program_id : Pubkey) (accounts : List AccountInfo) (slot : Nat)
    (sa : SanitizedAccounts) :
    SanitizedAccounts.sanitize createPA program_id accounts = .ok sa →
    sa.admin.account.key ≠ sa.operator.operator.admin →
    process_operator_remove_vault createPA program_id accounts slot =
      .error .authorizationFailure := by
  intro hs hne
  unfold process_operator_remove_vault
  rw [hs]
  simp only [bind, Except.bind]
  unfold Operator.check_admin
  have h2 : ¬ sa.operator.operator.admin = sa.admin.account.key :=
    fun h => hne h.symm
  simp [h2]

/-- Witness for C5: on the concrete fixture account set whose signer is not
the operator's admin, the processor fails with the authorization error. -/
theorem C5_admin_authorization_witness :
    process_operator_remove_vault cpa0 pid0 accountsWrongAdmin 5 =
      .error .authorizationFailure :=
  C5_admin_authorization cpa0 pid0 accountsWrongAdmin 5 saWrongAdmin
    (by rfl) (by decide)

/-- C10: the vault account undergoes no validation in
`process_operator_remove_vault` — only its key is used.  For two invocations
whose account lists differ only in the vault account (fifth position), the
vault keys being equal, the outcomes coincide: identical errors, and on
success identical writes (the vault-list region, position 2, receives the
same bytes), the results differing only in the untouched vault slot itself. -/
theorem C10_vault_account_independent
    (createPA : List (List UInt8) → Pubkey → Option Pubkey)
    (program_id : Pubkey) (slot : Nat) (a0 a1 a2 a3 v w : AccountInfo)
    (rest : List AccountInfo) :
    v.key = w.key →
    process_operator_remove_vault createPA program_id
        (a0 :: a1 :: a2 :: a3 :: v :: rest) slot =
      Except.map (fun st => setAccount st 4 v)
        (process_operator_remove_vault createPA program_id
          (a0 :: a1 :: a2 :: a3 :: w :: rest) slot) := by
  intro hk
  unfold process_operator_remove_vault SanitizedAccounts.sanitize
  simp only [next_account_info, bind, Except.bind]
  cases SanitizedConfig.sanitize createPA program_id a0 false with
  | error e => simp [Except.map]
  | ok c =>
  cases SanitizedOperator.sanitize createPA program_id a1 false with
  | error e => simp [Except.map]
  | ok op =>
  cases SanitizedOperatorVaultList.sanitize createPA program_id a2 true a1.key with
  | error e => simp [Except.map]
  | ok lst =>
  cases SanitizedSignerAccount.sanitize a3 false with
  | error e => simp [Except.map]
  | ok ad =>
  simp only [pure, Except.pure]
  cases Operator.check_admin op.operator ad.account.key with
  | error e => simp [Except.map]
  | ok u =>
  simp only [hk]
  cases lst.operator_vault_list.remove_vault w.key slot with
  | error e => simp [Except.map]
  | ok nl =>
  simp [Except.map, setAccountData, setAccount]

/-- Witness for C10: the fixture account set with two vault accounts sharing
a key but differing in data, owner and both flags. -/
theorem C10_vault_account_independent_witness :
    process_operator_remove_vault cpa0 pid0
        [configAcct, operatorAcct, listAcct, rightAdminAcct, vaultAcct] 5 =
      Except.map (fun st => setAccount st 4 vaultAcct)
        (process_operator_remove_vault cpa0 pid0
          [configAcct, operatorAcct, listAcct, rightAdminAcct,
            vaultAcctVariant] 5) :=
  C10_vault_account_independent cpa0 pid0 5 configAcct operatorAcct listAcct
    rightAdminAcct vaultAcct vaultAcctVariant [] rfl
